import Mathlib

/-!
Verification of the OpenClaw token reader
(`src/tools/scene-builder/src-tauri/src/lib.rs`, function
`read_openclaw_token`).

The Rust function resolves the user's home directory, reads the file
`<home>/.openclaw/openclaw.json` as text, parses it with
`serde_json::from_str`, navigates the JSON pointer `/gateway/auth/token`
and returns the string value found there; each step turns its failure
into a message string.

The embedding passes the ambient platform state explicitly (the result
of `dirs::home_dir()` and of `std::fs::read_to_string` at each path) and
models the `serde_json` calls by a JSON value type, an RFC 8259 parser
and a pointer lookup, written to follow `serde_json`'s documented
behaviour (strict grammar, last duplicate object key wins, pointer
indexing of arrays by decimal index without leading zeros, the
`number out of range` failure when a literal overflows a double, and
the default 128-level `recursion limit exceeded` guard on nested
containers).
-/

set_option exponentiation.threshold 1100
set_option maxRecDepth 16384

namespace OpenClaw

/-- JSON values, mirroring `serde_json::Value`.  A number is kept as a
decimal mantissa and exponent; an object is a list of key/value pairs in
source order. -/
inductive Json where
  | null
  | bool (b : Bool)
  | num (mantissa : Int) (exponent : Int)
  | str (s : String)
  | arr (items : List Json)
  | obj (fields : List (String × Json))

/-- Key lookup in an object.  `serde_json` stores objects in a map where
a later duplicate key overwrites an earlier one, so on the association
list the last matching binding wins. -/
def lookupLast (key : String) : List (String × Json) → Option Json
  | [] => none
  | (k, v) :: rest =>
    match lookupLast key rest with
    | some r => some r
    | none => if k = key then some v else none

/-- Decimal value of an ASCII digit. -/
def digitVal (c : Char) : Option Nat :=
  if '0' ≤ c ∧ c ≤ '9' then some (c.toNat - '0'.toNat) else none

/-- Array-index interpretation of a pointer token, as in
`serde_json::Value::pointer`: a non-empty all-digit string with no
leading zero and no sign. -/
def parseIndex (s : String) : Option Nat :=
  match s.data with
  | [] => none
  | ['0'] => some 0
  | '0' :: _ => none
  | '+' :: _ => none
  | cs =>
    cs.foldl
      (fun acc c =>
        match acc, digitVal c with
        | some n, some d => some (10 * n + d)
        | _, _ => none)
      (some 0)

/-- One navigation step of `Value::pointer`: index an object by key or
an array by decimal position; every other value has no children. -/
def Json.step (j : Json) (token : String) : Option Json :=
  match j with
  | .obj fields => lookupLast token fields
  | .arr items => (parseIndex token).bind fun i => items.get? i
  | _ => none

/-- `Value::pointer`, applied to the pointer string already split at
every `/` (with `~1` and `~0` unescaping, the identity on the fixed path
used here). -/
def Json.pointer (j : Json) : List String → Option Json
  | [] => some j
  | t :: ts => (j.step t).bind fun c => c.pointer ts

/-- `Value::as_str`: the payload of a string value, `none` otherwise. -/
def Json.as_str : Json → Option String
  | .str s => some s
  | _ => none

/-- Whether a value is an object. -/
def Json.isObj : Json → Bool
  | .obj _ => true
  | _ => false

/-! ### The JSON parser (`serde_json::from_str::<Value>`) -/

/-- JSON insignificant whitespace. -/
def isJsonWs (c : Char) : Bool :=
  c == ' ' || c == '\t' || c == '\n' || c == '\r'

/-- Drop leading whitespace. -/
def skipWs : List Char → List Char
  | [] => []
  | c :: cs => if isJsonWs c then skipWs cs else c :: cs

/-- Value of a hexadecimal digit. -/
def hexVal (c : Char) : Option Nat :=
  if '0' ≤ c ∧ c ≤ '9' then some (c.toNat - '0'.toNat)
  else if 'a' ≤ c ∧ c ≤ 'f' then some (c.toNat - 'a'.toNat + 10)
  else if 'A' ≤ c ∧ c ≤ 'F' then some (c.toNat - 'A'.toNat + 10)
  else none

/-- Four hexadecimal digits, as used by a `\u` escape. -/
def parseHex4 : List Char → Option (Nat × List Char)
  | a :: b :: c :: d :: rest =>
    match hexVal a, hexVal b, hexVal c, hexVal d with
    | some x, some y, some z, some w => some (((x * 16 + y) * 16 + z) * 16 + w, rest)
    | _, _, _, _ => none
  | _ => none

/-- The remainder of a JSON string literal, after its opening quote:
decodes the escapes `serde_json` accepts (including surrogate pairs),
rejects raw control characters and lone surrogates.  Returns the decoded
string and the input after the closing quote.  `fuel` only bounds
recursion; each step consumes input, so any fuel above the input length
is enough. -/
def parseStringRest : Nat → List Char → List Char → Except String (String × List Char)
  | 0, _, _ => .error "recursion limit exceeded"
  | _ + 1, _, [] => .error "unexpected end of input while parsing a string"
  | fuel + 1, acc, c :: cs =>
    if c = '"' then .ok (String.mk acc.reverse, cs)
    else if c = '\\' then
      match cs with
      | [] => .error "unexpected end of input in a string escape"
      | e :: cs1 =>
        if e = '"' then parseStringRest fuel ('"' :: acc) cs1
        else if e = '\\' then parseStringRest fuel ('\\' :: acc) cs1
        else if e = '/' then parseStringRest fuel ('/' :: acc) cs1
        else if e = 'b' then parseStringRest fuel (Char.ofNat 8 :: acc) cs1
        else if e = 'f' then parseStringRest fuel (Char.ofNat 12 :: acc) cs1
        else if e = 'n' then parseStringRest fuel ('\n' :: acc) cs1
        else if e = 'r' then parseStringRest fuel ('\r' :: acc) cs1
        else if e = 't' then parseStringRest fuel ('\t' :: acc) cs1
        else if e = 'u' then
          match parseHex4 cs1 with
          | none => .error "invalid hex escape"
          | some (n, cs2) =>
            if 0xD800 ≤ n ∧ n ≤ 0xDBFF then
              match cs2 with
              | '\\' :: 'u' :: cs3 =>
                match parseHex4 cs3 with
                | none => .error "invalid hex escape"
                | some (m, cs4) =>
                  if 0xDC00 ≤ m ∧ m ≤ 0xDFFF then
                    parseStringRest fuel
                      (Char.ofNat (0x10000 + (n - 0xD800) * 0x400 + (m - 0xDC00)) :: acc) cs4
                  else .error "lone leading surrogate in hex escape"
              | _ => .error "unexpected end of hex escape"
            else if 0xDC00 ≤ n ∧ n ≤ 0xDFFF then
              .error "lone trailing surrogate in hex escape"
            else
              parseStringRest fuel (Char.ofNat n :: acc) cs2
        else .error "invalid escape"
    else if c.toNat < 0x20 then .error "control character in string"
    else parseStringRest fuel (c :: acc) cs

/-- Take a maximal run of decimal digits. -/
def takeDigits : List Char → List Char × List Char
  | [] => ([], [])
  | c :: cs =>
    if '0' ≤ c ∧ c ≤ '9' then
      let (ds, rest) := takeDigits cs
      (c :: ds, rest)
    else ([], c :: cs)

/-- Numeric value of a digit run. -/
def digitsToNat (ds : List Char) : Nat :=
  ds.foldl (fun acc c => 10 * acc + (c.toNat - '0'.toNat)) 0

/-- The optional fractional part of a number: a dot must be followed by
at least one digit. -/
def parseFrac (cs : List Char) : Except String (List Char × List Char) :=
  match cs with
  | '.' :: rest =>
    let (ds, cs2) := takeDigits rest
    match ds with
    | [] => .error "invalid number"
    | _ => .ok (ds, cs2)
  | _ => .ok ([], cs)

/-- The optional exponent part of a number. -/
def parseExp (cs : List Char) : Except String (Int × List Char) :=
  match cs with
  | [] => .ok (0, [])
  | c :: rest =>
    if c = 'e' ∨ c = 'E' then
      let (esign, cs2) :=
        match rest with
        | '+' :: r => ((1 : Int), r)
        | '-' :: r => ((-1 : Int), r)
        | _ => ((1 : Int), rest)
      let (ds, cs3) := takeDigits cs2
      match ds with
      | [] => .error "invalid number"
      | _ => .ok (esign * Int.ofNat (digitsToNat ds), cs3)
    else .ok (0, c :: rest)

/-- The grammar of a JSON number per RFC 8259: optional minus sign, an
integer part with no leading zero, optional fraction and exponent.
Returns the decimal mantissa, the decimal exponent and the remaining
input.  This is pure well-formedness; the range check `serde_json`
applies on top of it lives in `parseNumber`. -/
def parseNumberParts (cs : List Char) : Except String (Int × Int × List Char) :=
  let (neg, cs1) :=
    match cs with
    | '-' :: rest => (true, rest)
    | _ => (false, cs)
  let (intDs, cs2) := takeDigits cs1
  match intDs with
  | [] => .error "invalid number"
  | '0' :: _ :: _ => .error "invalid number"
  | _ =>
    match parseFrac cs2 with
    | .error e => .error e
    | .ok (fracDs, cs3) =>
      match parseExp cs3 with
      | .error e => .error e
      | .ok (e, cs4) =>
        let mag : Nat := digitsToNat (intDs ++ fracDs)
        let mantissa : Int := if neg then -(Int.ofNat mag) else Int.ofNat mag
        .ok (mantissa, e - Int.ofNat fracDs.length, cs4)

/-- The smallest decimal magnitude whose correctly rounded conversion to
an IEEE double overflows to infinity: the midpoint `2^1024 - 2^970`
between the largest finite double `2^1024 - 2^971` and `2^1024`. -/
def f64OverflowThreshold : Nat := 2 ^ 1024 - 2 ^ 970

/-- Whether the decimal `m · 10^e` overflows a double.  `serde_json`
converts every number literal outside the `u64`/`i64` fast path to a
double and fails when that conversion is infinite; values too small for
a double underflow to zero without error. -/
def decimalOverflows (m e : Int) : Bool :=
  match e with
  | .ofNat n => decide (f64OverflowThreshold ≤ m.natAbs * 10 ^ n)
  | .negSucc n => decide (f64OverflowThreshold * 10 ^ (n + 1) ≤ m.natAbs)

/-- A JSON number as `serde_json` accepts it: the RFC 8259 grammar
followed by the double-overflow check, which fails with the library's
`number out of range` message. -/
def parseNumber (cs : List Char) : Except String (Json × List Char) :=
  match parseNumberParts cs with
  | .error e => .error e
  | .ok (m, e, rest) =>
    if decimalOverflows m e then .error "number out of range"
    else .ok (.num m e, rest)

mutual

/-- One JSON value, preceded by optional whitespace.  `fuel` only bounds
recursion; at most two recursive calls happen per input character
consumed, so any fuel above twice the input length never runs out.
`depth` is `serde_json`'s remaining
recursion depth (128 at the top level): entering a container decrements
it, and reaching zero fails with the library's
`recursion limit exceeded` message. -/
def parseValue : Nat → Nat → List Char → Except String (Json × List Char)
  | 0, _, _ => .error "out of fuel"
  | fuel + 1, depth, cs =>
    match skipWs cs with
    | [] => .error "unexpected end of input"
    | c :: rest =>
      if c = '{' then
        if depth ≤ 1 then .error "recursion limit exceeded"
        else parseMembers fuel (depth - 1) rest true []
      else if c = '[' then
        if depth ≤ 1 then .error "recursion limit exceeded"
        else parseItems fuel (depth - 1) rest true []
      else if c = '"' then
        match parseStringRest (rest.length + 1) [] rest with
        | .error e => .error e
        | .ok (s, cs2) => .ok (.str s, cs2)
      else if c = 't' then
        match rest with
        | 'r' :: 'u' :: 'e' :: cs2 => .ok (.bool true, cs2)
        | _ => .error "expected value"
      else if c = 'f' then
        match rest with
        | 'a' :: 'l' :: 's' :: 'e' :: cs2 => .ok (.bool false, cs2)
        | _ => .error "expected value"
      else if c = 'n' then
        match rest with
        | 'u' :: 'l' :: 'l' :: cs2 => .ok (.null, cs2)
        | _ => .error "expected value"
      else if c = '-' ∨ ('0' ≤ c ∧ c ≤ '9') then parseNumber (c :: rest)
      else .error "expected value"

/-- The members of an object, after its opening brace; `first` is true
while no member has been parsed, so only then may the object close
immediately (no trailing comma is accepted).  `depth` is the remaining
recursion depth inside this container. -/
def parseMembers : Nat → Nat → List Char → Bool → List (String × Json) →
    Except String (Json × List Char)
  | 0, _, _, _, _ => .error "out of fuel"
  | fuel + 1, depth, cs, first, acc =>
    match skipWs cs with
    | [] => .error "unexpected end of input"
    | c :: rest =>
      if c = '}' ∧ first then .ok (.obj acc.reverse, rest)
      else if c = '"' then
        match parseStringRest (rest.length + 1) [] rest with
        | .error e => .error e
        | .ok (key, cs2) =>
          match skipWs cs2 with
          | ':' :: cs3 =>
            match parseValue fuel depth cs3 with
            | .error e => .error e
            | .ok (v, cs4) =>
              match skipWs cs4 with
              | ',' :: cs5 => parseMembers fuel depth cs5 false ((key, v) :: acc)
              | '}' :: cs5 => .ok (.obj ((key, v) :: acc).reverse, cs5)
              | _ => .error "expected comma or closing brace"
          | _ => .error "expected colon"
      else .error "key must be a string"

/-- The items of an array, after its opening bracket; `first` is true
while no item has been parsed, so only then may the array close
immediately (no trailing comma is accepted).  `depth` is the remaining
recursion depth inside this container. -/
def parseItems : Nat → Nat → List Char → Bool → List Json →
    Except String (Json × List Char)
  | 0, _, _, _, _ => .error "out of fuel"
  | fuel + 1, depth, cs, first, acc =>
    match skipWs cs with
    | [] => .error "unexpected end of input"
    | c :: rest =>
      if c = ']' ∧ first then .ok (.arr acc.reverse, rest)
      else
        match parseValue fuel depth (c :: rest) with
        | .error e => .error e
        | .ok (v, cs2) =>
          match skipWs cs2 with
          | ',' :: cs3 => parseItems fuel depth cs3 false (v :: acc)
          | ']' :: cs3 => .ok (.arr (v :: acc).reverse, cs3)
          | _ => .error "expected comma or closing bracket"

end

/-- `serde_json::from_str::<Value>`: parse one JSON document, starting
from the library's default remaining recursion depth of 128, and require
that only whitespace follows it. -/
def from_str (s : String) : Except String Json :=
  match parseValue (2 * s.data.length + 2) 128 s.data with
  | .error e => .error e
  | .ok (j, rest) =>
    match skipWs rest with
    | [] => .ok j
    | _ => .error "trailing characters"

/-! ### The token reader -/

/-- The ambient platform state the reader depends on: the result of
`dirs::home_dir()` and the result of `std::fs::read_to_string` at each
path (the `Except.error` branch carries the displayed io error). -/
structure Env where
  homeDir : Option String
  readFile : String → Except String String

/-- `<home>/.openclaw/openclaw.json` (`PathBuf::join` twice). -/
def configPath (home : String) : String :=
  home ++ "/.openclaw/openclaw.json"

/-- The message produced when `dirs::home_dir()` returns `None`. -/
def errHomeDirUnresolved : String := "cannot resolve home directory"

/-- The message produced when the pointer lookup or `as_str` fails. -/
def errFieldNotFound : String := "gateway.auth.token not found in openclaw.json"

/-- The message produced when the file read fails. -/
def fileReadMsg (path cause : String) : String :=
  "cannot read " ++ path ++ ": " ++ cause

/-- The message produced when JSON parsing fails. -/
def parseMsg (cause : String) : String := "invalid JSON: " ++ cause

/-- The pointer `/gateway/auth/token`, split into reference tokens. -/
def pointerPath : List String := ["gateway", "auth", "token"]

/-- Translation of `read_openclaw_token` from
`src/tools/scene-builder/src-tauri/src/lib.rs`: resolve the home
directory, read `<home>/.openclaw/openclaw.json`, parse it, navigate to
`/gateway/auth/token`, return the string found there; each failing step
returns its message at once. -/
def read_openclaw_token (env : Env) : Except String String :=
  match env.homeDir with
  | none => .error errHomeDirUnresolved
  | some home =>
    match env.readFile (configPath home) with
    | .error e => .error (fileReadMsg (configPath home) e)
    | .ok raw =>
      match from_str raw with
      | .error e => .error (parseMsg e)
      | .ok json =>
        match (json.pointer pointerPath).bind Json.as_str with
        | some s => .ok s
        | none => .error errFieldNotFound

/-- A filesystem operation.  The reader only ever reads; the write
constructor exists so that the absence of writes is expressible. -/
inductive FsOp where
  | readFile (path : String)
  | writeFile (path : String) (contents : String)
  deriving DecidableEq

/-- The same translation of `read_openclaw_token`, additionally
recording every filesystem operation performed, in order. -/
def read_openclaw_token_traced (env : Env) : Except String String × List FsOp :=
  match env.homeDir with
  | none => (.error errHomeDirUnresolved, [])
  | some home =>
    match env.readFile (configPath home) with
    | .error e => (.error (fileReadMsg (configPath home) e), [.readFile (configPath home)])
    | .ok raw =>
      match from_str raw with
      | .error e => (.error (parseMsg e), [.readFile (configPath home)])
      | .ok json =>
        match (json.pointer pointerPath).bind Json.as_str with
        | some s => (.ok s, [.readFile (configPath home)])
        | none => (.error errFieldNotFound, [.readFile (configPath home)])

end OpenClaw

namespace OpenClaw

/-! ### Helper lemmas -/

/-- A parse-failure message never coincides with the field-not-found
message: their first characters already differ. -/
theorem parseMsg_ne_errFieldNotFound (cause : String) :
    parseMsg cause ≠ errFieldNotFound := by
  intro h
  have h2 : (parseMsg cause).data = errFieldNotFound.data := by rw [h]
  rw [parseMsg, String.data_append] at h2
  rw [show ("invalid JSON: ").data = 'i' :: ("nvalid JSON: ").data from rfl] at h2
  rw [show errFieldNotFound.data
      = 'g' :: ("ateway.auth.token not found in openclaw.json").data from rfl] at h2
  rw [List.cons_append] at h2
  injection h2 with h3 _
  exact absurd h3 (by decide)

/-- On any non-object value, the first pointer step `gateway` already
fails: an array has no member at a non-numeric token, and scalar values
have no children at all. -/
theorem step_gateway_of_not_obj (j : Json) (h : j.isObj = false) :
    j.step "gateway" = none := by
  cases j with
  | null => rfl
  | bool b => rfl
  | num m e => rfl
  | str s => rfl
  | arr items =>
    show (parseIndex "gateway").bind (fun i => items.get? i) = none
    rw [show parseIndex "gateway" = none from rfl]
    rfl
  | obj fields => simp [Json.isObj] at h

/-! ### The claims -/

/-- C1: when the home directory resolves, the file at
`<home>/.openclaw/openclaw.json` reads successfully, its text parses as
JSON, and the value of the document at `gateway.auth.token` is the JSON
string `s`, `read_openclaw_token` returns `Ok s`. -/
theorem read_token_returns_string_at_pointer (env : Env) (home raw s : String) (j : Json)
    (hh : env.homeDir = some home)
    (hr : env.readFile (configPath home) = .ok raw)
    (hp : from_str raw = .ok j)
    (ht : j.pointer pointerPath = some (.str s)) :
    read_openclaw_token env = .ok s := by
  simp [read_openclaw_token, hh, hr, hp, ht, Json.as_str]

/-- Environment whose config file holds the spec's example document. -/
def envC1 : Env where
  homeDir := some "/home/user"
  readFile := fun p =>
    if p = "/home/user/.openclaw/openclaw.json" then
      .ok "\x7b\"gateway\":\x7b\"auth\":\x7b\"token\":\"abc123\"\x7d\x7d\x7d"
    else .error "No such file or directory (os error 2)"

/-- C1 witness: on the example document the reader returns `abc123`. -/
theorem read_token_returns_string_at_pointer_witness :
    read_openclaw_token envC1 = .ok "abc123" :=
  read_token_returns_string_at_pointer envC1 "/home/user"
    "\x7b\"gateway\":\x7b\"auth\":\x7b\"token\":\"abc123\"\x7d\x7d\x7d" "abc123"
    (.obj [("gateway", .obj [("auth", .obj [("token", .str "abc123")])])])
    rfl rfl rfl rfl

/-- C2: with the home directory resolved, the file read and its text
parsed, if the path `gateway.auth.token` is absent from the document or
holds a non-string value, `read_openclaw_token` returns the
field-not-found message — the same message in both cases. -/
theorem read_token_missing_or_nonstring_fieldNotFound (env : Env) (home raw : String) (j : Json)
    (hh : env.homeDir = some home)
    (hr : env.readFile (configPath home) = .ok raw)
    (hp : from_str raw = .ok j)
    (hm : j.pointer pointerPath = none ∨
      ∃ v, j.pointer pointerPath = some v ∧ v.as_str = none) :
    read_openclaw_token env = .error errFieldNotFound := by
  rcases hm with hm | ⟨v, hv, hvs⟩
  · simp [read_openclaw_token, hh, hr, hp, hm]
  · simp [read_openclaw_token, hh, hr, hp, hv, hvs]

/-- Environment whose config file is the empty object. -/
def envC2absent : Env where
  homeDir := some "/home/user"
  readFile := fun _ => .ok "\x7b\x7d"

/-- Environment whose config file holds a numeric token. -/
def envC2number : Env where
  homeDir := some "/home/user"
  readFile := fun _ => .ok "\x7b\"gateway\":\x7b\"auth\":\x7b\"token\":42\x7d\x7d\x7d"

/-- C2 witness: the empty object (absent path) and a numeric token
value (wrong type) both yield the field-not-found message. -/
theorem read_token_missing_or_nonstring_fieldNotFound_witness :
    read_openclaw_token envC2absent = .error errFieldNotFound ∧
    read_openclaw_token envC2number = .error errFieldNotFound :=
  ⟨read_token_missing_or_nonstring_fieldNotFound envC2absent "/home/user" "\x7b\x7d"
      (.obj []) rfl rfl rfl (Or.inl rfl),
   read_token_missing_or_nonstring_fieldNotFound envC2number "/home/user"
      "\x7b\"gateway\":\x7b\"auth\":\x7b\"token\":42\x7d\x7d\x7d"
      (.obj [("gateway", .obj [("auth", .obj [("token", .num 42 0)])])])
      rfl rfl rfl (Or.inr ⟨.num 42 0, rfl, rfl⟩)⟩

/-- C3: when the home directory cannot be resolved, the reader returns
the home-directory message and its filesystem trace is empty — no file
is read, so no other error kind can arise. -/
theorem read_token_homeDir_unresolved (env : Env)
    (hh : env.homeDir = none) :
    read_openclaw_token env = .error errHomeDirUnresolved ∧
    (read_openclaw_token_traced env).2 = [] := by
  constructor
  · simp [read_openclaw_token, hh]
  · simp [read_openclaw_token_traced, hh]

/-- Environment with no home directory but a readable filesystem. -/
def envC3 : Env where
  homeDir := none
  readFile := fun _ => .ok "\x7b\x7d"

/-- C3 witness: with no home directory the error is returned and the
trace stays empty even though every file would be readable. -/
theorem read_token_homeDir_unresolved_witness :
    read_openclaw_token envC3 = .error errHomeDirUnresolved ∧
    (read_openclaw_token_traced envC3).2 = [] :=
  read_token_homeDir_unresolved envC3 rfl

/-- C4: when the home directory resolves but reading the config file
fails, the reader returns the file-read message built from the resolved
path and the underlying cause. -/
theorem read_token_fileReadError (env : Env) (home cause : String)
    (hh : env.homeDir = some home)
    (hr : env.readFile (configPath home) = .error cause) :
    read_openclaw_token env = .error (fileReadMsg (configPath home) cause) := by
  simp [read_openclaw_token, hh, hr]

/-- Environment in which the config file is missing. -/
def envC4 : Env where
  homeDir := some "/home/user"
  readFile := fun _ => .error "No such file or directory (os error 2)"

/-- C4 witness: on a missing file the reader reports the resolved path
and the io cause. -/
theorem read_token_fileReadError_witness :
    read_openclaw_token envC4 =
      .error (fileReadMsg (configPath "/home/user")
        "No such file or directory (os error 2)") :=
  read_token_fileReadError envC4 "/home/user"
    "No such file or directory (os error 2)" rfl rfl

/-- C5: when the file reads successfully but its text fails to parse as
JSON, the reader returns the parse message carrying the underlying
cause; that message is never the field-not-found one, so the lookup
step is not reached. -/
theorem read_token_parseError (env : Env) (home raw cause : String)
    (hh : env.homeDir = some home)
    (hr : env.readFile (configPath home) = .ok raw)
    (hp : from_str raw = .error cause) :
    read_openclaw_token env = .error (parseMsg cause) ∧
    parseMsg cause ≠ errFieldNotFound := by
  refine ⟨?_, parseMsg_ne_errFieldNotFound cause⟩
  simp [read_openclaw_token, hh, hr, hp]

/-- Environment whose config file holds the spec's malformed example. -/
def envC5 : Env where
  homeDir := some "/home/user"
  readFile := fun _ => .ok "\x7bnot json"

/-- C5 witness: the malformed text from the spec yields the parse
message. -/
theorem read_token_parseError_witness :
    read_openclaw_token envC5 = .error (parseMsg "key must be a string") ∧
    parseMsg "key must be a string" ≠ errFieldNotFound :=
  read_token_parseError envC5 "/home/user" "\x7bnot json" "key must be a string"
    rfl rfl rfl

/-- C6: every successful result is exactly the JSON string value stored
at `gateway.auth.token` in the parsed document, returned verbatim with
no transformation (the empty string included). -/
theorem read_token_verbatim (env : Env) (t : String)
    (h : read_openclaw_token env = .ok t) :
    ∃ home raw j, env.homeDir = some home ∧
      env.readFile (configPath home) = .ok raw ∧
      from_str raw = .ok j ∧
      j.pointer pointerPath = some (.str t) := by
  unfold read_openclaw_token at h
  cases hh : env.homeDir with
  | none => rw [hh] at h; simp at h
  | some home =>
    rw [hh] at h
    simp only [] at h
    cases hr : env.readFile (configPath home) with
    | error e => rw [hr] at h; simp at h
    | ok raw =>
      rw [hr] at h
      simp only [] at h
      cases hp : from_str raw with
      | error e => rw [hp] at h; simp at h
      | ok j =>
        rw [hp] at h
        simp only [] at h
        cases hb : (j.pointer pointerPath).bind Json.as_str with
        | none => rw [hb] at h; simp at h
        | some s =>
          rw [hb] at h
          simp only [] at h
          have hst : s = t := by
            simpa using h
          subst hst
          obtain ⟨v, hv, hvs⟩ := Option.bind_eq_some.mp hb
          cases v with
          | str s2 =>
            simp [Json.as_str] at hvs
            subst hvs
            exact ⟨home, raw, j, rfl, hr, hp, hv⟩
          | null => simp [Json.as_str] at hvs
          | bool b => simp [Json.as_str] at hvs
          | num m e => simp [Json.as_str] at hvs
          | arr items => simp [Json.as_str] at hvs
          | obj fields => simp [Json.as_str] at hvs

/-- Environment whose config file holds an empty-string token. -/
def envC6 : Env where
  homeDir := some "/home/user"
  readFile := fun _ => .ok "\x7b\"gateway\":\x7b\"auth\":\x7b\"token\":\"\"\x7d\x7d\x7d"

/-- C6 witness: the empty token returned by the reader is the very
string stored in the document. -/
theorem read_token_verbatim_witness :
    ∃ home raw j, envC6.homeDir = some home ∧
      envC6.readFile (configPath home) = .ok raw ∧
      from_str raw = .ok j ∧
      j.pointer pointerPath = some (.str "") :=
  read_token_verbatim envC6 "" rfl

/-- C7: the reader is deterministic in its environment: two calls that
agree on the home-directory resolution and on the content read at the
config path return the same result. -/
theorem read_token_deterministic (e1 e2 : Env)
    (hh : e1.homeDir = e2.homeDir)
    (hf : ∀ home, e1.homeDir = some home →
      e1.readFile (configPath home) = e2.readFile (configPath home)) :
    read_openclaw_token e1 = read_openclaw_token e2 := by
  cases h1 : e1.homeDir with
  | none =>
    have h2 : e2.homeDir = none := hh.symm.trans h1
    simp [read_openclaw_token, h1, h2]
  | some home =>
    have h2 : e2.homeDir = some home := hh.symm.trans h1
    have h3 := hf home h1
    simp [read_openclaw_token, h1, h2, h3]

/-- One of two environments that agree at the config path. -/
def envC7a : Env where
  homeDir := some "/home/user"
  readFile := fun p =>
    if p = "/home/user/.openclaw/openclaw.json" then
      .ok "\x7b\"gateway\":\x7b\"auth\":\x7b\"token\":\"tok\"\x7d\x7d\x7d"
    else .error "transient"

/-- The other environment: same config file, different elsewhere. -/
def envC7b : Env where
  homeDir := some "/home/user"
  readFile := fun p =>
    if p = "/home/user/.openclaw/openclaw.json" then
      .ok "\x7b\"gateway\":\x7b\"auth\":\x7b\"token\":\"tok\"\x7d\x7d\x7d"
    else .ok "something else entirely"

/-- C7 witness: the two environments above give the same result. -/
theorem read_token_deterministic_witness :
    read_openclaw_token envC7a = read_openclaw_token envC7b := by
  apply read_token_deterministic envC7a envC7b rfl
  intro home hhome
  have h : some "/home/user" = some home := hhome
  injection h with h2
  subst h2
  rfl

/-- C8: the reader is purely a read.  The traced run returns the same
result as the plain one, and its operation list is empty or a single
read of the config path: no write ever appears and no path is read
twice, so every failure is terminal and nothing is retried. -/
theorem read_token_pure_single_read (env : Env) :
    (read_openclaw_token_traced env).1 = read_openclaw_token env ∧
    ((read_openclaw_token_traced env).2 = [] ∨
      ∃ p, (read_openclaw_token_traced env).2 = [FsOp.readFile p]) := by
  cases hh : env.homeDir with
  | none =>
    exact ⟨by simp [read_openclaw_token, read_openclaw_token_traced, hh],
      Or.inl (by simp [read_openclaw_token_traced, hh])⟩
  | some home =>
    cases hr : env.readFile (configPath home) with
    | error e =>
      exact ⟨by simp [read_openclaw_token, read_openclaw_token_traced, hh, hr],
        Or.inr ⟨configPath home, by simp [read_openclaw_token_traced, hh, hr]⟩⟩
    | ok raw =>
      cases hp : from_str raw with
      | error e =>
        exact ⟨by simp [read_openclaw_token, read_openclaw_token_traced, hh, hr, hp],
          Or.inr ⟨configPath home, by simp [read_openclaw_token_traced, hh, hr, hp]⟩⟩
      | ok j =>
        cases hb : (j.pointer pointerPath).bind Json.as_str with
        | none =>
          exact ⟨by simp [read_openclaw_token, read_openclaw_token_traced, hh, hr, hp, hb],
            Or.inr ⟨configPath home, by simp [read_openclaw_token_traced, hh, hr, hp, hb]⟩⟩
        | some s =>
          exact ⟨by simp [read_openclaw_token, read_openclaw_token_traced, hh, hr, hp, hb],
            Or.inr ⟨configPath home, by simp [read_openclaw_token_traced, hh, hr, hp, hb]⟩⟩

/-- C9: the reader is total over its interface: every environment
yields either a token or one of the four error messages; nothing else
can come out. -/
theorem read_token_total (env : Env) :
    (∃ t, read_openclaw_token env = .ok t) ∨
    read_openclaw_token env = .error errHomeDirUnresolved ∨
    (∃ home cause, env.homeDir = some home ∧
      read_openclaw_token env = .error (fileReadMsg (configPath home) cause)) ∨
    (∃ cause, read_openclaw_token env = .error (parseMsg cause)) ∨
    read_openclaw_token env = .error errFieldNotFound := by
  cases hh : env.homeDir with
  | none => exact Or.inr (Or.inl (by simp [read_openclaw_token, hh]))
  | some home =>
    cases hr : env.readFile (configPath home) with
    | error e =>
      exact Or.inr (Or.inr (Or.inl
        ⟨home, e, rfl, by simp [read_openclaw_token, hh, hr]⟩))
    | ok raw =>
      cases hp : from_str raw with
      | error e =>
        exact Or.inr (Or.inr (Or.inr (Or.inl
          ⟨e, by simp [read_openclaw_token, hh, hr, hp]⟩)))
      | ok j =>
        cases hb : (j.pointer pointerPath).bind Json.as_str with
        | none =>
          exact Or.inr (Or.inr (Or.inr (Or.inr
            (by simp [read_openclaw_token, hh, hr, hp, hb]))))
        | some s =>
          exact Or.inl ⟨s, by simp [read_openclaw_token, hh, hr, hp, hb]⟩

/-- C10 (amended): a document that `serde_json` accepts whose top-level
value is not an object fails only at the lookup: the reader returns the
field-not-found message, and that is never a parse message.  (The
original claim, over every grammatically well-formed document, is false:
the parser's double-overflow and recursion-depth checks reject some
well-formed non-object documents with a parse error — see the
counterexample below.) -/
theorem read_token_nonObject_fieldNotFound (env : Env) (home raw : String) (j : Json)
    (hh : env.homeDir = some home)
    (hr : env.readFile (configPath home) = .ok raw)
    (hp : from_str raw = .ok j)
    (hobj : j.isObj = false) :
    read_openclaw_token env = .error errFieldNotFound ∧
    ∀ cause, (Except.error errFieldNotFound : Except String String) ≠
      .error (parseMsg cause) := by
  constructor
  · have hptr : j.pointer pointerPath = none := by
      simp [pointerPath, Json.pointer, step_gateway_of_not_obj j hobj]
    simp [read_openclaw_token, hh, hr, hp, hptr]
  · intro cause h
    exact parseMsg_ne_errFieldNotFound cause (Except.error.inj h).symm

/-- Environment whose config file holds a top-level array. -/
def envC10 : Env where
  homeDir := some "/home/user"
  readFile := fun _ => .ok "[1, 2, 3]"

/-- C10 witness: a top-level array yields the field-not-found message,
not a parse error. -/
theorem read_token_nonObject_fieldNotFound_witness :
    read_openclaw_token envC10 = .error errFieldNotFound ∧
    ∀ cause, (Except.error errFieldNotFound : Except String String) ≠
      .error (parseMsg cause) :=
  read_token_nonObject_fieldNotFound envC10 "/home/user" "[1, 2, 3]"
    (.arr [.num 1 0, .num 2 0, .num 3 0]) rfl rfl rfl rfl

/-- Environment whose config file holds the well-formed JSON number
`1e999`, whose value overflows a double. -/
def envC10overflow : Env where
  homeDir := some "/home/user"
  readFile := fun _ => .ok "1e999"

/-- C10 counterexample: `1e999` is a grammatically well-formed JSON
document with a non-object top level — a single number consuming the
whole input — yet the reader rejects it with the parse message carrying
`serde_json`'s `number out of range` cause, not with the field-not-found
message: the original claim fails on this input. -/
theorem read_token_nonObject_counterexample :
    parseNumberParts ("1e999").data = .ok (1, 999, []) ∧
    read_openclaw_token envC10overflow = .error (parseMsg "number out of range") ∧
    (Except.error (parseMsg "number out of range") : Except String String) ≠
      .error errFieldNotFound := by
  refine ⟨rfl, rfl, ?_⟩
  intro h
  exact parseMsg_ne_errFieldNotFound "number out of range" (Except.error.inj h)

end OpenClaw
